import Mathlib

/-!
# Provenance statement generation for task runs (SLSA formats v1 and v2)

A shallow embedding of
`pkg/chains/formats/slsa/v1/taskrun/taskrun.go` and
`pkg/chains/formats/slsa/v2/taskrun/taskrun.go`.

Conventions of the embedding:

* a Go pointer or interface value that may be nil is an `Option`;
* a Go `(value, error)` result is a pair whose second component is `none` for a nil error;
* a Go map is the list of its entries (`GoMap`), the nil map being the empty list;
* a run-time panic (here: a nil pointer dereference) is the `panicked` case of `Outcome`;
* functions of other packages whose bodies are not part of the two files
  (`extract.SubjectDigests`, `material.Materials`, `attest.Invocation`, `buildConfig`)
  are parameters of the functions that call them.
-/

namespace Chains

/-! ## Go values -/

/-- Result of running a Go function body: it either returns a value or panics. -/
inductive Outcome (α : Type) where
  | returned (a : α)
  | panicked
deriving DecidableEq, Repr

/-- Sequencing of two computations: a panic in the first one aborts the second. -/
def Outcome.bind {α β : Type} (o : Outcome α) (f : α → Outcome β) : Outcome β :=
  match o with
  | Outcome.returned a => f a
  | Outcome.panicked => Outcome.panicked

/-- Dereference of a pointer: panics on nil. -/
def Outcome.deref {α : Type} (p : Option α) : Outcome α :=
  match p with
  | some a => Outcome.returned a
  | none => Outcome.panicked

/-- A Go value of interface type `error`. -/
structure Error where
  message : String
deriving DecidableEq, Repr

/-- A Go map with string keys, given by its entries; the nil map has no entries. -/
abbrev GoMap (V : Type) := List (String × V)

/-- The map after the assignment `m[k] = v`. -/
def GoMap.set {V : Type} (m : GoMap V) (k : String) (v : V) : GoMap V :=
  m.filter (fun e => e.1 != k) ++ [(k, v)]

/-- The keys of a map. -/
def GoMap.keys {V : Type} (m : GoMap V) : List String :=
  m.map Prod.fst

/-- The value stored under a key, if any. -/
def GoMap.get? {V : Type} (m : GoMap V) (k : String) : Option V :=
  (m.find? (fun e => e.1 == k)).map Prod.snd

/-! ## Package `time` -/

/-- A time zone: a name and an offset from UTC in seconds. -/
structure Location where
  name : String
  offset : Int
deriving DecidableEq, Repr

/-- The location `time.UTC`. -/
def Location.UTC : Location := ⟨"UTC", 0⟩

/-- A `time.Time`: an instant (nanoseconds on the absolute time line) together with the
location it is displayed in. Monotonic clock readings are not modelled. -/
structure Time where
  instant : Int
  loc : Location
deriving DecidableEq, Repr

/-- The method `Time.UTC()`: the same instant with the location set to UTC. -/
def Time.UTC (t : Time) : Time :=
  { t with loc := Location.UTC }

/-! ## Package `k8s.io/apimachinery/pkg/util/sets` -/

/-- The type `sets.String`: a set of strings. -/
structure StringSet where
  items : List String
deriving DecidableEq, Repr

/-- The constructor `sets.NewString(items...)`. -/
def sets.NewString (items : List String) : StringSet := ⟨items⟩

/-- The method `Has`: membership in the set. -/
def StringSet.Has (s : StringSet) (item : String) : Bool := s.items.contains item

/-! ## Package `github.com/tektoncd/pipeline/pkg/apis/pipeline/v1beta1` -/

namespace v1beta1

/-- A declared parameter of a run. -/
structure Param where
  Name : String
  Value : String
deriving DecidableEq, Repr

/-- A parameter specification of a task. -/
structure ParamSpec where
  Name : String
  Description : String
  Default : Option String
deriving DecidableEq, Repr

/-- The resolved specification of a task. -/
structure TaskSpec where
  Params : List ParamSpec
  Description : String
deriving DecidableEq, Repr

/-- A declared result of a run. -/
structure TaskRunResult where
  Name : String
  Value : String
deriving DecidableEq, Repr

/-- The config-source reference of a provenance hint. -/
structure ConfigSource where
  URI : String
  Digest : GoMap String
  EntryPoint : String
deriving DecidableEq, Repr

/-- The provenance hint of a run; `ConfigSource` is a pointer and may be nil. -/
structure Provenance where
  ConfigSource : Option ConfigSource
deriving DecidableEq, Repr

/-- The declared spec of a run. The declaration of the struct is not part of the two files, so
the spec is given by what the code reads from it: the field `Params`, and the view that
`reflect.ValueOf` gives of the struct, the list of its fields (name and value) in declaration
order. `V` is the type of the field values as returned by `Interface()`. -/
structure TaskRunSpec (V : Type) where
  Params : List Param
  reflectFields : List (String × V)
deriving DecidableEq, Repr

/-- The status of a run. -/
structure TaskRunStatus where
  StartTime : Option Time
  CompletionTime : Option Time
  TaskSpec : Option TaskSpec
  TaskRunResults : List TaskRunResult
  Provenance : Option Provenance
deriving DecidableEq, Repr

end v1beta1

/-! ## Package `k8s.io/apimachinery/pkg/apis/meta/v1` -/

/-- Object metadata of a run. -/
structure ObjectMeta where
  Name : String
  Namespace : String
  Labels : GoMap String
  Annotations : GoMap String
deriving DecidableEq, Repr

/-! ## Package `pkg/chains/objects` -/

namespace objects

/-- The run record handed to the generators. -/
structure TaskRunObject (V : Type) where
  ObjectMeta : ObjectMeta
  gvk : String
  Spec : v1beta1.TaskRunSpec V
  Status : v1beta1.TaskRunStatus
deriving DecidableEq, Repr

variable {V : Type}

/-- Modelled from the spec: the method `GetGVK()`, whose body is in package `objects`; it
returns the object-kind identifier of the run (group, version and kind), kept in the record as
the string `gvk`. -/
def TaskRunObject.GetGVK (tro : TaskRunObject V) : String := tro.gvk

/-- The method `GetObjectMeta()`. -/
def TaskRunObject.GetObjectMeta (tro : TaskRunObject V) : Chains.ObjectMeta := tro.ObjectMeta

/-- The promoted field `Labels` of the embedded object metadata. -/
def TaskRunObject.Labels (tro : TaskRunObject V) : GoMap String := tro.ObjectMeta.Labels

end objects

/-! ## Packages `in_toto` and `in_toto/slsa_provenance` -/

namespace slsa

/-- The constant `slsa.PredicateSLSAProvenance` of package `slsa_provenance/v0.2`, which both
generators import. -/
def PredicateSLSAProvenance : String := "https://slsa.dev/provenance/v0.2"

/-- The config source of an invocation; the zero value has all three fields empty. -/
structure ConfigSource where
  URI : String := ""
  Digest : GoMap String := []
  EntryPoint : String := ""
deriving DecidableEq, Repr

/-- The invocation section; `Parameters` and `Environment` have interface type, `I` is the
type of the values stored in them. -/
structure ProvenanceInvocation (I : Type) where
  ConfigSource : ConfigSource := {}
  Parameters : Option I := none
  Environment : Option I := none
deriving DecidableEq, Repr

/-- The completeness flags of the metadata section. -/
structure ProvenanceComplete where
  Parameters : Bool := false
  Environment : Bool := false
  Materials : Bool := false
deriving DecidableEq, Repr

/-- The metadata section; the two timestamps are pointers. -/
structure ProvenanceMetadata where
  BuildInvocationID : String := ""
  BuildStartedOn : Option Time := none
  BuildFinishedOn : Option Time := none
  Completeness : ProvenanceComplete := {}
  Reproducible : Bool := false
deriving DecidableEq, Repr

/-- The builder section. -/
structure ProvenanceBuilder where
  ID : String
deriving DecidableEq, Repr

/-- An input artifact. -/
structure ProvenanceMaterial where
  URI : String
  Digest : GoMap String
deriving DecidableEq, Repr

/-- The provenance predicate; `BuildConfig` has interface type, `BC` is the type of the value
stored in it. -/
structure ProvenancePredicate (I BC : Type) where
  Builder : ProvenanceBuilder
  BuildType : String
  Invocation : ProvenanceInvocation I
  BuildConfig : BC
  Metadata : ProvenanceMetadata
  Materials : List ProvenanceMaterial
deriving DecidableEq, Repr

end slsa

namespace intoto

/-- The constant `intoto.StatementInTotoV01`. -/
def StatementInTotoV01 : String := "https://in-toto.io/Statement/v0.1"

/-- An output artifact. -/
structure Subject where
  Name : String
  Digest : GoMap String
deriving DecidableEq, Repr

/-- The header of a statement (the Go field `Type` is named `Type_`). -/
structure StatementHeader where
  Type_ : String
  PredicateType : String
  Subject : List Subject
deriving DecidableEq, Repr

/-- The provenance statement. -/
structure ProvenanceStatement (I BC : Type) where
  StatementHeader : StatementHeader
  Predicate : slsa.ProvenancePredicate I BC
deriving DecidableEq, Repr

end intoto

/-! ## Package `pkg/chains/formats/slsa/attest` -/

namespace attest

/-- Modelled from the spec: the constant `attest.ChainsReproducibleAnnotation`, the
reproducibility marker label, whose declaration is in package `attest`; the value is the one
of the spec's example scenario. -/
def ChainsReproducibleAnnotation : String := "chains.tekton.dev/reproducible"

end attest

/-! ## Package `pkg/chains/config` -/

namespace config

/-- The string type `config.PayloadType`. -/
abbrev PayloadType := String

end config

open objects

/-! ## `pkg/chains/formats/slsa/v1/taskrun/taskrun.go` -/

namespace v1.taskrun

variable {V I BC : Type}

/-- The function `invocation` of the v1 file. The shared constructor `attest.Invocation` is the
parameter `attestInvocation`. -/
def invocation
    (attestInvocation : Option v1beta1.ConfigSource → List v1beta1.Param →
      List v1beta1.ParamSpec → ObjectMeta → slsa.ProvenanceInvocation I)
    (tro : TaskRunObject V) : slsa.ProvenanceInvocation I :=
  let paramSpecs : List v1beta1.ParamSpec :=
    match tro.Status.TaskSpec with
    | some ts => ts.Params
    | none => []
  let source : Option v1beta1.ConfigSource :=
    match tro.Status.Provenance with
    | some p => p.ConfigSource
    | none => none
  attestInvocation source tro.Spec.Params paramSpecs tro.GetObjectMeta

/-- The function `Metadata` of the v1 file. -/
def Metadata (tro : TaskRunObject V) : slsa.ProvenanceMetadata :=
  let m : slsa.ProvenanceMetadata := {}
  let m : slsa.ProvenanceMetadata :=
    match tro.Status.StartTime with
    | some t => { m with BuildStartedOn := some t.UTC }
    | none => m
  let m : slsa.ProvenanceMetadata :=
    match tro.Status.CompletionTime with
    | some t => { m with BuildFinishedOn := some t.UTC }
    | none => m
  tro.Labels.foldl
    (fun m e =>
      if e.1 == attest.ChainsReproducibleAnnotation && e.2 == "true" then
        { m with Reproducible := true }
      else m)
    m

/-- The function `GenerateAttestation` of the v1 file. The adapters `extract.SubjectDigests`
and `material.Materials`, the constructor `attest.Invocation` and the package function
`buildConfig` are parameters. -/
def GenerateAttestation
    (SubjectDigests : TaskRunObject V → List intoto.Subject)
    (Materials : TaskRunObject V → List slsa.ProvenanceMaterial × Option Error)
    (attestInvocation : Option v1beta1.ConfigSource → List v1beta1.Param →
      List v1beta1.ParamSpec → ObjectMeta → slsa.ProvenanceInvocation I)
    (buildConfig : TaskRunObject V → BC)
    (builderID : String) (tro : TaskRunObject V) :
    Option (intoto.ProvenanceStatement I BC) × Option Error :=
  let subjects := SubjectDigests tro
  match Materials tro with
  | (_, some err) => (none, some err)
  | (mat, none) =>
    let att : intoto.ProvenanceStatement I BC :=
      { StatementHeader :=
          { Type_ := intoto.StatementInTotoV01
            PredicateType := slsa.PredicateSLSAProvenance
            Subject := subjects }
        Predicate :=
          { Builder := { ID := builderID }
            BuildType := tro.GetGVK
            Invocation := invocation attestInvocation tro
            BuildConfig := buildConfig tro
            Metadata := Metadata tro
            Materials := mat } }
    (some att, none)

end v1.taskrun

/-! ## `pkg/chains/formats/slsa/v2/taskrun/taskrun.go` -/

namespace v2.taskrun

variable {V : Type}

/-- The type `BuildConfig` of the v2 file. -/
structure BuildConfig where
  TaskSpec : Option v1beta1.TaskSpec
  TaskRunResults : List v1beta1.TaskRunResult
deriving DecidableEq, Repr

/-- The function `invocationParams` of the v2 file: the loop runs over the field indices
`0 .. NumField - 1` of the reflected spec. -/
def invocationParams (tro : TaskRunObject V) : GoMap V :=
  let iParams : GoMap V := []
  let skipFields := sets.NewString ["TaskRef", "TaskSpec"]
  let v := tro.Spec.reflectFields
  (List.range v.length).foldl
    (fun iParams i =>
      match v[i]? with
      | some field =>
        let fieldName := field.1
        if !skipFields.Has field.1 then iParams.set fieldName field.2 else iParams
      | none => iParams)
    iParams

/-- The function `invocation` of the v2 file. The expression `p.ConfigSource.URI` dereferences
the pointer `p.ConfigSource`. -/
def invocation (tro : TaskRunObject V) : Outcome (slsa.ProvenanceInvocation (GoMap V)) :=
  let i : slsa.ProvenanceInvocation (GoMap V) := {}
  let step : Outcome (slsa.ProvenanceInvocation (GoMap V)) :=
    match tro.Status.Provenance with
    | some p =>
      (Outcome.deref p.ConfigSource).bind fun cs =>
        Outcome.returned
          { i with
            ConfigSource := { URI := cs.URI, Digest := cs.Digest, EntryPoint := cs.EntryPoint } }
    | none => Outcome.returned i
  step.bind fun i =>
    Outcome.returned { i with Parameters := some (invocationParams tro) }

/-- The function `GenerateAttestation` of the v2 file. The adapters `extract.SubjectDigests`
and `material.Materials` are parameters. -/
def GenerateAttestation
    (SubjectDigests : TaskRunObject V → List intoto.Subject)
    (Materials : TaskRunObject V → List slsa.ProvenanceMaterial × Option Error)
    (builderID : String) (payloadType : config.PayloadType) (tro : TaskRunObject V) :
    Outcome (Option (intoto.ProvenanceStatement (GoMap V) BuildConfig) × Option Error) :=
  let subjects := SubjectDigests tro
  match Materials tro with
  | (_, some err) => Outcome.returned (none, some err)
  | (mat, none) =>
    (invocation tro).bind fun inv =>
      let att : intoto.ProvenanceStatement (GoMap V) BuildConfig :=
        { StatementHeader :=
            { Type_ := intoto.StatementInTotoV01
              PredicateType := slsa.PredicateSLSAProvenance
              Subject := subjects }
          Predicate :=
            { Builder := { ID := builderID }
              BuildType :=
                "https://chains.tekton.dev/format/" ++ payloadType ++ "/type/" ++ tro.GetGVK
              Invocation := inv
              BuildConfig :=
                { TaskSpec := tro.Status.TaskSpec, TaskRunResults := tro.Status.TaskRunResults }
              Metadata := v1.taskrun.Metadata tro
              Materials := mat } }
      Outcome.returned (some att, none)

end v2.taskrun

/-! ## Example run records -/

namespace Examples

/-- The config-source reference of the example scenario. -/
def configSource : v1beta1.ConfigSource :=
  { URI := "git+https://x", Digest := [("sha1", "deadbeef")], EntryPoint := "build.sh" }

/-- The example scenario: a run in a zone two hours east of UTC, marked reproducible, with a
provenance hint that carries a config-source reference. -/
def tro : TaskRunObject String :=
  { ObjectMeta :=
      { Name := "build", Namespace := "default",
        Labels := [("chains.tekton.dev/reproducible", "true")], Annotations := [] }
    gvk := "tekton.dev/v1beta1/TaskRun"
    Spec :=
      { Params := [{ Name := "IMAGE", Value := "x" }]
        reflectFields :=
          [("Params", "IMAGE=x"), ("ServiceAccountName", "default"), ("TaskRef", "build-task"),
           ("TaskSpec", ""), ("Timeout", "1h")] }
    Status :=
      { StartTime := some { instant := 1000, loc := ⟨"CEST", 7200⟩ }
        CompletionTime := some { instant := 2000, loc := ⟨"CEST", 7200⟩ }
        TaskSpec := some { Params := [{ Name := "IMAGE", Description := "", Default := none }],
                           Description := "build" }
        TaskRunResults := [{ Name := "digest", Value := "sha256:abc" }]
        Provenance := some { ConfigSource := some configSource } } }

/-- A run record whose provenance hint is present but carries no config-source reference. -/
def troHintWithoutSource : TaskRunObject String :=
  { tro with Status := { tro.Status with Provenance := some { ConfigSource := none } } }

/-- A run record without provenance hint, timestamps and labels. -/
def troBare : TaskRunObject String :=
  { tro with
    ObjectMeta := { tro.ObjectMeta with Labels := [] }
    Status :=
      { StartTime := none, CompletionTime := none, TaskSpec := none, TaskRunResults := [],
        Provenance := none } }

/-- The example scenario with the same instants recorded in UTC. -/
def troUTC : TaskRunObject String :=
  { tro with
    Status :=
      { tro.Status with
        StartTime := some { instant := 1000, loc := Location.UTC }
        CompletionTime := some { instant := 2000, loc := Location.UTC } } }

/-- The example scenario with the marker label set to "True". -/
def troCapitalTrue : TaskRunObject String :=
  { tro with
    ObjectMeta :=
      { tro.ObjectMeta with Labels := [(attest.ChainsReproducibleAnnotation, "True")] } }

/-- The example scenario with another task reference and an inline task specification in the
declared spec; everything else is as in the example scenario. -/
def troOtherTask : TaskRunObject String :=
  { tro with
    Spec :=
      { tro.Spec with
        reflectFields :=
          [("Params", "IMAGE=x"), ("ServiceAccountName", "default"), ("TaskRef", "other-task"),
           ("TaskSpec", "steps: [push]"), ("Timeout", "1h")] } }

/-- A run record that has started and not completed. -/
def troRunning : TaskRunObject String :=
  { tro with Status := { tro.Status with CompletionTime := none } }

/-- Subject extraction that finds two artifacts, the second a duplicate of the first. -/
def subjectDigests (_ : TaskRunObject String) : List intoto.Subject :=
  [{ Name := "img", Digest := [("sha256", "abc")] }, { Name := "img", Digest := [("sha256", "abc")] }]

/-- Subject extraction that finds nothing. -/
def noSubjects (_ : TaskRunObject String) : List intoto.Subject := []

/-- Material resolution that succeeds. -/
def materialsOk (_ : TaskRunObject String) : List slsa.ProvenanceMaterial × Option Error :=
  ([{ URI := "git+https://x", Digest := [("sha1", "deadbeef")] },
    { URI := "oci://base", Digest := [("sha256", "00") ] }], none)

/-- Material resolution that fails. -/
def materialsFail (_ : TaskRunObject String) : List slsa.ProvenanceMaterial × Option Error :=
  ([], some ⟨"unreachable registry"⟩)

/-- A shared invocation constructor that copies the config-source reference it is handed. -/
def attestInvocation (source : Option v1beta1.ConfigSource) (_ : List v1beta1.Param)
    (_ : List v1beta1.ParamSpec) (_ : ObjectMeta) : slsa.ProvenanceInvocation String :=
  match source with
  | some cs => { ConfigSource := { URI := cs.URI, Digest := cs.Digest, EntryPoint := cs.EntryPoint } }
  | none => {}

/-- A v1 build-config assembler: the resolved specification. -/
def buildConfig (t : TaskRunObject String) : Option v1beta1.TaskSpec := t.Status.TaskSpec

end Examples

/-! ## Maps -/

section Maps

variable {V : Type}

theorem GoMap.mem_keys_set (m : GoMap V) (k : String) (v : V) (x : String) :
    x ∈ (m.set k v).keys ↔ (x ∈ m.keys ∧ x ≠ k) ∨ x = k := by
  simp only [GoMap.set, GoMap.keys, List.map_append, List.mem_append, List.mem_map,
    List.mem_filter, List.map_cons, List.map_nil, List.mem_singleton]
  constructor
  · rintro (⟨e, ⟨he, hne⟩, rfl⟩ | h)
    · left
      exact ⟨⟨e, he, rfl⟩, by simpa using hne⟩
    · right
      exact h
  · rintro (⟨⟨e, he, rfl⟩, hne⟩ | h)
    · left
      exact ⟨e, ⟨he, by simpa using hne⟩, rfl⟩
    · right
      exact h

/-- Assigning under a key that the map does not have adds one entry. -/
theorem GoMap.set_of_not_mem_keys (m : GoMap V) (k : String) (v : V) (hk : k ∉ m.keys) :
    m.set k v = m ++ [(k, v)] := by
  unfold GoMap.set
  congr 1
  rw [List.filter_eq_self]
  intro e he
  simp only [bne_iff_ne, ne_eq]
  intro hek
  exact hk (hek ▸ List.mem_map_of_mem Prod.fst he)

/-- In a map, an entry is found under its key. -/
theorem GoMap.get?_of_mem (m : GoMap V) (hnd : m.keys.Nodup) (k : String) (v : V)
    (hmem : (k, v) ∈ m) : m.get? k = some v := by
  induction m with
  | nil => exact absurd hmem (List.not_mem_nil _)
  | cons e rest ih =>
    simp only [GoMap.keys, List.map_cons, List.nodup_cons] at hnd
    rcases List.mem_cons.mp hmem with h | h
    · subst h
      simp [GoMap.get?]
    · have hne : e.1 ≠ k := by
        intro hek
        exact hnd.1 (hek ▸ List.mem_map_of_mem Prod.fst h)
      have hrest := ih hnd.2 h
      simp only [GoMap.get?] at hrest ⊢
      rw [List.find?_cons_of_neg _ (by simpa using hne)]
      exact hrest

end Maps

/-! ## The loops of `Metadata` and `invocationParams` -/

section Loops

variable {V : Type}

/-- The label loop of `Metadata` touches only `Reproducible`, which ends up true exactly when
it was true before or some entry is the marker label with value `"true"`. -/
theorem Metadata_label_loop (labels : GoMap String) (m : slsa.ProvenanceMetadata) :
    (labels.foldl
      (fun m e =>
        if e.1 == attest.ChainsReproducibleAnnotation && e.2 == "true" then
          { m with Reproducible := true }
        else m)
      m) =
    { m with
      Reproducible := m.Reproducible ||
        labels.any (fun e => e.1 == attest.ChainsReproducibleAnnotation && e.2 == "true") } := by
  induction labels generalizing m with
  | nil => simp
  | cons e rest ih =>
    rw [List.foldl_cons, ih]
    by_cases h : (e.1 == attest.ChainsReproducibleAnnotation && e.2 == "true") = true
    · simp [h]
    · simp only [Bool.not_eq_true] at h
      simp [h]

/-- Every run of the field loop of `invocationParams`, over any list of indices, keeps the
skipped field names out of the map. -/
theorem invocationParams_loop_skips (fields : List (String × V)) (skip : String)
    (hskip : (sets.NewString ["TaskRef", "TaskSpec"]).Has skip = true)
    (indices : List Nat) (acc : GoMap V) (hacc : skip ∉ acc.keys) :
    skip ∉ (indices.foldl
      (fun iParams i =>
        match fields[i]? with
        | some field =>
          let fieldName := field.1
          if !(sets.NewString ["TaskRef", "TaskSpec"]).Has field.1 then
            iParams.set fieldName field.2
          else iParams
        | none => iParams)
      acc).keys := by
  induction indices generalizing acc with
  | nil => simpa using hacc
  | cons i rest ih =>
    rw [List.foldl_cons]
    apply ih
    cases hf : fields[i]? with
    | none => simpa using hacc
    | some field =>
      by_cases hs : (sets.NewString ["TaskRef", "TaskSpec"]).Has field.1 = true
      · simpa [hs] using hacc
      · simp only [Bool.not_eq_true] at hs
        simp only [hs, Bool.not_false, if_true]
        rw [GoMap.mem_keys_set]
        rintro (⟨h, _⟩ | h)
        · exact hacc h
        · rw [h, hs] at hskip
          exact Bool.noConfusion hskip

/-- The timestamps of `Metadata` are the timestamps of the record, each converted by `UTC()`
when present. -/
theorem Metadata_timestamps (tro : TaskRunObject V) :
    (v1.taskrun.Metadata tro).BuildStartedOn = tro.Status.StartTime.map Time.UTC ∧
    (v1.taskrun.Metadata tro).BuildFinishedOn = tro.Status.CompletionTime.map Time.UTC := by
  unfold v1.taskrun.Metadata
  simp only [Metadata_label_loop]
  cases tro.Status.StartTime <;> cases tro.Status.CompletionTime <;> exact ⟨rfl, rfl⟩

/-- The v2 build-type string is never the object-kind identifier it ends with: it is longer. -/
theorem buildType_v2_ne_gvk (payloadType gvk : String) :
    gvk ≠ "https://chains.tekton.dev/format/" ++ payloadType ++ "/type/" ++ gvk := by
  intro h
  have hlen := congrArg String.length h
  have h1 : "https://chains.tekton.dev/format/".length = 33 := by decide
  have h2 : "/type/".length = 6 := by decide
  simp only [String.length_append, h1, h2] at hlen
  omega

/-- A loop over the indices of a list that reads the element at each index is the fold over
the list. -/
theorem foldl_range_getElem? {α β : Type} (l : List α) (g : β → α → β) (init : β) :
    (List.range l.length).foldl
      (fun acc i =>
        match l[i]? with
        | some x => g acc x
        | none => acc)
      init = l.foldl g init := by
  induction l generalizing init with
  | nil => rfl
  | cons x rest ih =>
    rw [List.length_cons, List.range_succ_eq_map, List.foldl_cons, List.foldl_map]
    simp only [List.getElem?_cons_zero, List.getElem?_cons_succ, List.foldl_cons]
    exact ih (g init x)

/-- The field loop of `invocationParams` as a fold over the reflected fields. -/
theorem invocationParams_eq_foldl (tro : TaskRunObject V) :
    v2.taskrun.invocationParams tro =
      tro.Spec.reflectFields.foldl
        (fun (iParams : GoMap V) field =>
          if !(sets.NewString ["TaskRef", "TaskSpec"]).Has field.1 then
            iParams.set field.1 field.2
          else iParams)
        [] := by
  rw [← foldl_range_getElem?]
  unfold v2.taskrun.invocationParams
  refine congrArg (fun f => List.foldl f [] (List.range tro.Spec.reflectFields.length)) ?_
  funext acc i
  cases tro.Spec.reflectFields[i]? <;> rfl

/-- The skip set of `invocationParams` has the two names "TaskRef" and "TaskSpec". -/
theorem skipFields_Has (name : String) :
    (sets.NewString ["TaskRef", "TaskSpec"]).Has name = true ↔
      name = "TaskRef" ∨ name = "TaskSpec" := by
  simp [sets.NewString, StringSet.Has]

/-- Over fields with distinct names, none of them a key of the map so far, the field loop
appends the fields that are not skipped, in declaration order. -/
theorem fieldLoop_eq_append_filter (fields : List (String × V)) (acc : GoMap V)
    (hnd : (acc.keys ++ fields.map Prod.fst).Nodup) :
    fields.foldl
      (fun iParams field =>
        if !(sets.NewString ["TaskRef", "TaskSpec"]).Has field.1 then
          iParams.set field.1 field.2
        else iParams)
      acc =
    acc ++ fields.filter (fun field => !(sets.NewString ["TaskRef", "TaskSpec"]).Has field.1) := by
  induction fields generalizing acc with
  | nil => simp
  | cons f rest ih =>
    rw [List.foldl_cons]
    have hf : f.1 ∉ acc.keys := by
      intro hmem
      have := (List.nodup_append.mp hnd).2.2 hmem
      exact this (List.mem_cons_self _ _)
    have hrest : (acc.keys ++ rest.map Prod.fst).Nodup := by
      refine hnd.sublist ?_
      exact List.Sublist.append_left (List.sublist_cons_self _ _) _
    by_cases hs : (sets.NewString ["TaskRef", "TaskSpec"]).Has f.1 = true
    · simp only [hs, Bool.not_true, Bool.false_eq_true, if_false]
      rw [ih acc hrest, List.filter_cons_of_neg (by simp [hs])]
    · simp only [Bool.not_eq_true] at hs
      simp only [hs, Bool.not_false, if_true]
      rw [GoMap.set_of_not_mem_keys acc f.1 f.2 hf, ih, List.filter_cons_of_pos (by simp [hs]),
        List.append_assoc, List.singleton_append]
      simp only [GoMap.keys, List.map_append, List.map_cons, List.map_nil, List.append_assoc,
        List.singleton_append]
      simpa [GoMap.keys] using hnd

/-- The field loop gives the same map on two field lists that have the same names and the same
values except in skipped fields. -/
theorem fieldLoop_congr (fields1 fields2 : List (String × V)) (acc : GoMap V)
    (hrel : List.Forall₂
      (fun f1 f2 => f1.1 = f2.1 ∧
        ((sets.NewString ["TaskRef", "TaskSpec"]).Has f1.1 = true ∨ f1.2 = f2.2))
      fields1 fields2) :
    fields1.foldl
      (fun iParams field =>
        if !(sets.NewString ["TaskRef", "TaskSpec"]).Has field.1 then
          iParams.set field.1 field.2
        else iParams)
      acc =
    fields2.foldl
      (fun iParams field =>
        if !(sets.NewString ["TaskRef", "TaskSpec"]).Has field.1 then
          iParams.set field.1 field.2
        else iParams)
      acc := by
  induction hrel generalizing acc
  case nil => rfl
  case cons f1 f2 rest1 rest2 hhead _ ih =>
    rw [List.foldl_cons, List.foldl_cons]
    obtain ⟨hname, hval⟩ := hhead
    rcases hval with hs | hv
    · have hs2 : (sets.NewString ["TaskRef", "TaskSpec"]).Has f2.1 = true := hname ▸ hs
      simp only [hs, hs2, Bool.not_true, Bool.false_eq_true, if_false]
      exact ih acc
    · rw [← hname, ← hv]
      exact ih _

end Loops

/-! ## Statement generation: the error path and the success path -/

section Generation

variable {V I BC : Type}

/-- When material resolution returns an error, the v1 generator returns that error and no
statement. -/
theorem v1_GenerateAttestation_of_error
    (SubjectDigests : TaskRunObject V → List intoto.Subject)
    (Materials : TaskRunObject V → List slsa.ProvenanceMaterial × Option Error)
    (attestInvocation : Option v1beta1.ConfigSource → List v1beta1.Param →
      List v1beta1.ParamSpec → ObjectMeta → slsa.ProvenanceInvocation I)
    (buildConfig : TaskRunObject V → BC) (builderID : String) (tro : TaskRunObject V)
    (err : Error) (herr : (Materials tro).2 = some err) :
    v1.taskrun.GenerateAttestation SubjectDigests Materials attestInvocation buildConfig
      builderID tro = (none, some err) := by
  rcases hm : Materials tro with ⟨mat, _ | e⟩
  · rw [hm] at herr
    exact Option.noConfusion herr
  · rw [hm] at herr
    simp only [Option.some.injEq] at herr
    simp [v1.taskrun.GenerateAttestation, hm, herr]

/-- When material resolution returns no error, the v1 generator returns a statement and no
error. -/
theorem v1_GenerateAttestation_of_ok
    (SubjectDigests : TaskRunObject V → List intoto.Subject)
    (Materials : TaskRunObject V → List slsa.ProvenanceMaterial × Option Error)
    (attestInvocation : Option v1beta1.ConfigSource → List v1beta1.Param →
      List v1beta1.ParamSpec → ObjectMeta → slsa.ProvenanceInvocation I)
    (buildConfig : TaskRunObject V → BC) (builderID : String) (tro : TaskRunObject V)
    (hok : (Materials tro).2 = none) :
    v1.taskrun.GenerateAttestation SubjectDigests Materials attestInvocation buildConfig
      builderID tro =
    (some
      { StatementHeader :=
          { Type_ := intoto.StatementInTotoV01
            PredicateType := slsa.PredicateSLSAProvenance
            Subject := SubjectDigests tro }
        Predicate :=
          { Builder := { ID := builderID }
            BuildType := tro.GetGVK
            Invocation := v1.taskrun.invocation attestInvocation tro
            BuildConfig := buildConfig tro
            Metadata := v1.taskrun.Metadata tro
            Materials := (Materials tro).1 } }, none) := by
  rcases hm : Materials tro with ⟨mat, _ | e⟩
  · simp [v1.taskrun.GenerateAttestation, hm]
  · rw [hm] at hok
    exact Option.noConfusion hok

/-- When material resolution returns an error, the v2 generator returns that error and no
statement, without running the invocation builder. -/
theorem v2_GenerateAttestation_of_error
    (SubjectDigests : TaskRunObject V → List intoto.Subject)
    (Materials : TaskRunObject V → List slsa.ProvenanceMaterial × Option Error)
    (builderID : String) (payloadType : config.PayloadType) (tro : TaskRunObject V)
    (err : Error) (herr : (Materials tro).2 = some err) :
    v2.taskrun.GenerateAttestation SubjectDigests Materials builderID payloadType tro =
      Outcome.returned (none, some err) := by
  rcases hm : Materials tro with ⟨mat, _ | e⟩
  · rw [hm] at herr
    exact Option.noConfusion herr
  · rw [hm] at herr
    simp only [Option.some.injEq] at herr
    simp [v2.taskrun.GenerateAttestation, hm, herr]

/-- When material resolution returns no error, the v2 generator does what its invocation
builder does: it panics with it, and otherwise returns a statement and no error. -/
theorem v2_GenerateAttestation_of_ok
    (SubjectDigests : TaskRunObject V → List intoto.Subject)
    (Materials : TaskRunObject V → List slsa.ProvenanceMaterial × Option Error)
    (builderID : String) (payloadType : config.PayloadType) (tro : TaskRunObject V)
    (hok : (Materials tro).2 = none) :
    v2.taskrun.GenerateAttestation SubjectDigests Materials builderID payloadType tro =
    (v2.taskrun.invocation tro).bind fun inv =>
      Outcome.returned
        (some
          { StatementHeader :=
              { Type_ := intoto.StatementInTotoV01
                PredicateType := slsa.PredicateSLSAProvenance
                Subject := SubjectDigests tro }
            Predicate :=
              { Builder := { ID := builderID }
                BuildType :=
                  "https://chains.tekton.dev/format/" ++ payloadType ++ "/type/" ++ tro.GetGVK
                Invocation := inv
                BuildConfig :=
                  { TaskSpec := tro.Status.TaskSpec
                    TaskRunResults := tro.Status.TaskRunResults }
                Metadata := v1.taskrun.Metadata tro
                Materials := (Materials tro).1 } }, none) := by
  rcases hm : Materials tro with ⟨mat, _ | e⟩
  · simp [v2.taskrun.GenerateAttestation, hm]
  · rw [hm] at hok
    exact Option.noConfusion hok

/-- The v1 generator returns an error exactly when material resolution does. -/
theorem v1_GenerateAttestation_error_iff
    (SubjectDigests : TaskRunObject V → List intoto.Subject)
    (Materials : TaskRunObject V → List slsa.ProvenanceMaterial × Option Error)
    (attestInvocation : Option v1beta1.ConfigSource → List v1beta1.Param →
      List v1beta1.ParamSpec → ObjectMeta → slsa.ProvenanceInvocation I)
    (buildConfig : TaskRunObject V → BC) (builderID : String) (tro : TaskRunObject V)
    (err : Error) :
    (v1.taskrun.GenerateAttestation SubjectDigests Materials attestInvocation buildConfig
      builderID tro).2 = some err ↔ (Materials tro).2 = some err := by
  constructor
  · intro h
    cases hm : (Materials tro).2 with
    | none =>
      rw [v1_GenerateAttestation_of_ok SubjectDigests Materials attestInvocation buildConfig
        builderID tro hm] at h
      exact Option.noConfusion h
    | some e =>
      rw [v1_GenerateAttestation_of_error SubjectDigests Materials attestInvocation buildConfig
        builderID tro e hm] at h
      exact h
  · intro h
    rw [v1_GenerateAttestation_of_error SubjectDigests Materials attestInvocation buildConfig
      builderID tro err h]

/-- The v2 generator returns an error exactly when material resolution does. -/
theorem v2_GenerateAttestation_error_iff
    (SubjectDigests : TaskRunObject V → List intoto.Subject)
    (Materials : TaskRunObject V → List slsa.ProvenanceMaterial × Option Error)
    (builderID : String) (payloadType : config.PayloadType) (tro : TaskRunObject V)
    (err : Error) :
    (∃ st, v2.taskrun.GenerateAttestation SubjectDigests Materials builderID payloadType tro =
      Outcome.returned (st, some err)) ↔ (Materials tro).2 = some err := by
  constructor
  · rintro ⟨st, h⟩
    cases hm : (Materials tro).2 with
    | none =>
      rw [v2_GenerateAttestation_of_ok SubjectDigests Materials builderID payloadType tro hm] at h
      cases hi : v2.taskrun.invocation tro with
      | panicked => simp [hi, Outcome.bind] at h
      | returned inv => simp [hi, Outcome.bind] at h
    | some e =>
      rw [v2_GenerateAttestation_of_error SubjectDigests Materials builderID payloadType tro e hm]
        at h
      simp only [Outcome.returned.injEq, Prod.mk.injEq] at h
      exact h.2
  · intro h
    exact ⟨none,
      v2_GenerateAttestation_of_error SubjectDigests Materials builderID payloadType tro err h⟩

/-- The map of `invocationParams` is the same for two declared specs that have the same field
names and the same field values except in the fields TaskRef and TaskSpec. -/
theorem invocationParams_congr (tro1 tro2 : TaskRunObject V)
    (hspec : List.Forall₂
      (fun f1 f2 => f1.1 = f2.1 ∧ (f1.1 = "TaskRef" ∨ f1.1 = "TaskSpec" ∨ f1.2 = f2.2))
      tro1.Spec.reflectFields tro2.Spec.reflectFields) :
    v2.taskrun.invocationParams tro1 = v2.taskrun.invocationParams tro2 := by
  rw [invocationParams_eq_foldl, invocationParams_eq_foldl]
  apply fieldLoop_congr
  refine hspec.imp ?_
  rintro f1 f2 ⟨hname, h⟩
  refine ⟨hname, ?_⟩
  rcases h with h | h | h
  · exact Or.inl ((skipFields_Has f1.1).mpr (Or.inl h))
  · exact Or.inl ((skipFields_Has f1.1).mpr (Or.inr h))
  · exact Or.inr h

/-- The v2 invocation builder reads the status of the record and, of its declared spec, the
map of `invocationParams`. -/
theorem v2_invocation_congr (tro1 tro2 : TaskRunObject V)
    (hstatus : tro1.Status = tro2.Status)
    (hparams : v2.taskrun.invocationParams tro1 = v2.taskrun.invocationParams tro2) :
    v2.taskrun.invocation tro1 = v2.taskrun.invocation tro2 := by
  unfold v2.taskrun.invocation
  rw [hstatus, hparams]

/-- Metadata reads the status and the labels of the record. -/
theorem Metadata_congr (tro1 tro2 : TaskRunObject V)
    (hstatus : tro1.Status = tro2.Status) (hmeta : tro1.ObjectMeta = tro2.ObjectMeta) :
    v1.taskrun.Metadata tro1 = v1.taskrun.Metadata tro2 := by
  unfold v1.taskrun.Metadata TaskRunObject.Labels
  rw [hstatus, hmeta]

end Generation

/-! ## Claims -/

section Claims

variable {V I BC : Type}

/-- C1, at the failing input. The run record carries a provenance hint without config-source
reference and material resolution succeeds: the v1 generator returns a statement and no error,
but the v2 generator panics in its invocation builder, so the v2 call does not succeed although
material resolution did. -/
theorem GenerateAttestation_v2_panics_after_materials_resolved :
    (Examples.materialsOk Examples.troHintWithoutSource).2 = none ∧
    v2.taskrun.GenerateAttestation Examples.noSubjects Examples.materialsOk "builder" "in-toto"
      Examples.troHintWithoutSource = Outcome.panicked ∧
    (∃ st, v1.taskrun.GenerateAttestation Examples.noSubjects Examples.materialsOk
      Examples.attestInvocation Examples.buildConfig "builder" Examples.troHintWithoutSource =
        (some st, none)) := by
  refine ⟨by decide, by decide, ?_⟩
  exact ⟨_, v1_GenerateAttestation_of_ok Examples.noSubjects Examples.materialsOk
    Examples.attestInvocation Examples.buildConfig "builder" Examples.troHintWithoutSource
    (by decide)⟩

/-- C2. Whenever material resolution succeeds with the sequence `mat`: the v1 generator returns
a statement whose Subject is the sequence returned by subject extraction and whose Materials is
`mat`; every result the v2 generator returns is such a statement; the v2 generator returns one
whenever its invocation builder returns, and so on every record whose provenance hint, when
present, carries a config-source reference. Equality of lists is equality of length, elements
and order, duplicates included. -/
theorem GenerateAttestation_subject_and_materials_verbatim
    (SubjectDigests : TaskRunObject V → List intoto.Subject)
    (Materials : TaskRunObject V → List slsa.ProvenanceMaterial × Option Error)
    (attestInvocation : Option v1beta1.ConfigSource → List v1beta1.Param →
      List v1beta1.ParamSpec → ObjectMeta → slsa.ProvenanceInvocation I)
    (buildConfig : TaskRunObject V → BC)
    (builderID : String) (payloadType : config.PayloadType) (tro : TaskRunObject V)
    (mat : List slsa.ProvenanceMaterial) (hm : Materials tro = (mat, none)) :
    (∃ st, v1.taskrun.GenerateAttestation SubjectDigests Materials attestInvocation buildConfig
        builderID tro = (some st, none) ∧
      st.StatementHeader.Subject = SubjectDigests tro ∧ st.Predicate.Materials = mat) ∧
    (∀ r, v2.taskrun.GenerateAttestation SubjectDigests Materials builderID payloadType tro =
        Outcome.returned r →
      ∃ st, r = (some st, none) ∧
        st.StatementHeader.Subject = SubjectDigests tro ∧ st.Predicate.Materials = mat) ∧
    (∀ inv, v2.taskrun.invocation tro = Outcome.returned inv →
      ∃ st, v2.taskrun.GenerateAttestation SubjectDigests Materials builderID payloadType tro =
          Outcome.returned (some st, none) ∧
        st.StatementHeader.Subject = SubjectDigests tro ∧ st.Predicate.Materials = mat) ∧
    ((∀ p, tro.Status.Provenance = some p → p.ConfigSource ≠ none) →
      ∃ st, v2.taskrun.GenerateAttestation SubjectDigests Materials builderID payloadType tro =
          Outcome.returned (some st, none) ∧
        st.StatementHeader.Subject = SubjectDigests tro ∧ st.Predicate.Materials = mat) := by
  have hok : (Materials tro).2 = none := by rw [hm]
  have hmat : (Materials tro).1 = mat := by rw [hm]
  have hret : ∀ inv, v2.taskrun.invocation tro = Outcome.returned inv →
      ∃ st, v2.taskrun.GenerateAttestation SubjectDigests Materials builderID payloadType tro =
          Outcome.returned (some st, none) ∧
        st.StatementHeader.Subject = SubjectDigests tro ∧ st.Predicate.Materials = mat := by
    intro inv hi
    rw [v2_GenerateAttestation_of_ok SubjectDigests Materials builderID payloadType tro hok, hi]
    exact ⟨_, rfl, rfl, hmat⟩
  refine ⟨?_, ?_, hret, ?_⟩
  · refine ⟨_, v1_GenerateAttestation_of_ok SubjectDigests Materials attestInvocation
      buildConfig builderID tro hok, rfl, hmat⟩
  · intro r hr
    rw [v2_GenerateAttestation_of_ok SubjectDigests Materials builderID payloadType tro hok]
      at hr
    cases hi : v2.taskrun.invocation tro with
    | panicked =>
      rw [hi] at hr
      exact Outcome.noConfusion hr
    | returned inv =>
      rw [hi] at hr
      simp only [Outcome.bind, Outcome.returned.injEq] at hr
      exact ⟨_, hr.symm, rfl, hmat⟩
  · intro hsrc
    cases hi : v2.taskrun.invocation tro with
    | returned inv => exact hret inv hi
    | panicked =>
      exfalso
      unfold v2.taskrun.invocation at hi
      cases hp : tro.Status.Provenance with
      | none => simp [hp, Outcome.bind] at hi
      | some p =>
        cases hc : p.ConfigSource with
        | none => exact hsrc p hp hc
        | some cs => simp [hp, hc, Outcome.bind, Outcome.deref] at hi

/-- Witness of C2: in the example scenario subject extraction returns a duplicated subject and
material resolution returns two materials; the v1 generator and the v2 generator each return a
statement that carries both subjects and both materials, in that order. -/
theorem GenerateAttestation_subject_and_materials_verbatim_witness :
    Examples.materialsOk Examples.tro =
      ([{ URI := "git+https://x", Digest := [("sha1", "deadbeef")] },
        { URI := "oci://base", Digest := [("sha256", "00")] }], none) ∧
    (∀ p, Examples.tro.Status.Provenance = some p → p.ConfigSource ≠ none) ∧
    (∃ inv, v2.taskrun.invocation Examples.tro = Outcome.returned inv) ∧
    (∃ st, v1.taskrun.GenerateAttestation Examples.subjectDigests Examples.materialsOk
        Examples.attestInvocation Examples.buildConfig "builder" Examples.tro = (some st, none) ∧
      st.StatementHeader.Subject =
        [{ Name := "img", Digest := [("sha256", "abc")] },
         { Name := "img", Digest := [("sha256", "abc")] }] ∧
      st.Predicate.Materials =
        [{ URI := "git+https://x", Digest := [("sha1", "deadbeef")] },
         { URI := "oci://base", Digest := [("sha256", "00")] }]) ∧
    (∃ st, v2.taskrun.GenerateAttestation Examples.subjectDigests Examples.materialsOk "builder"
        "in-toto" Examples.tro = Outcome.returned (some st, none) ∧
      st.StatementHeader.Subject =
        [{ Name := "img", Digest := [("sha256", "abc")] },
         { Name := "img", Digest := [("sha256", "abc")] }] ∧
      st.Predicate.Materials =
        [{ URI := "git+https://x", Digest := [("sha1", "deadbeef")] },
         { URI := "oci://base", Digest := [("sha256", "00")] }]) := by
  have hsrc : ∀ p, Examples.tro.Status.Provenance = some p → p.ConfigSource ≠ none := by
    intro p hp
    cases hp
    exact fun h => Option.noConfusion h
  have h := GenerateAttestation_subject_and_materials_verbatim Examples.subjectDigests
    Examples.materialsOk Examples.attestInvocation Examples.buildConfig "builder" "in-toto"
    Examples.tro
    [{ URI := "git+https://x", Digest := [("sha1", "deadbeef")] },
     { URI := "oci://base", Digest := [("sha256", "00")] }] rfl
  exact ⟨rfl, hsrc, ⟨_, rfl⟩, h.1, h.2.2.2 hsrc⟩

/-- C3. Metadata returns Reproducible = true if and only if the label mapping of the record has
an entry whose key is the reproducibility marker label and whose value is exactly the string
"true"; otherwise Reproducible is false, in particular when the record has no labels and when
the marker label is its only label and has any other value. -/
theorem Metadata_Reproducible_iff (tro : TaskRunObject V) :
    ((v1.taskrun.Metadata tro).Reproducible = true ↔
      (attest.ChainsReproducibleAnnotation, "true") ∈ tro.Labels) ∧
    ((v1.taskrun.Metadata tro).Reproducible = false ↔
      (attest.ChainsReproducibleAnnotation, "true") ∉ tro.Labels) ∧
    (tro.Labels = [] → (v1.taskrun.Metadata tro).Reproducible = false) ∧
    (∀ value, value ≠ "true" → tro.Labels = [(attest.ChainsReproducibleAnnotation, value)] →
      (v1.taskrun.Metadata tro).Reproducible = false) := by
  have h : (v1.taskrun.Metadata tro).Reproducible = true ↔
      (attest.ChainsReproducibleAnnotation, "true") ∈ tro.Labels := by
    unfold v1.taskrun.Metadata
    simp only [Metadata_label_loop]
    cases tro.Status.StartTime <;> cases tro.Status.CompletionTime <;>
      simp only [Bool.false_or, List.any_eq_true, Bool.and_eq_true, beq_iff_eq] <;>
      (constructor
       · rintro ⟨⟨k, v⟩, hmem, hk, hv⟩
         simp only at hk hv
         rw [← hk, ← hv]
         exact hmem
       · intro hmem
         exact ⟨_, hmem, rfl, rfl⟩)
  have hf : (v1.taskrun.Metadata tro).Reproducible = false ↔
      (attest.ChainsReproducibleAnnotation, "true") ∉ tro.Labels := by
    rw [← h]
    cases (v1.taskrun.Metadata tro).Reproducible <;> simp
  refine ⟨h, hf, ?_, ?_⟩
  · intro hl
    rw [hf, hl]
    exact List.not_mem_nil _
  · intro value hv hl
    rw [hf, hl]
    intro hmem
    simp only [List.mem_singleton, Prod.mk.injEq, true_and] at hmem
    exact hv hmem.symm

/-- Witness of C3: the example scenario is marked reproducible; the record without labels is
not, and neither is a record whose marker label has the value "True". -/
theorem Metadata_Reproducible_iff_witness :
    (v1.taskrun.Metadata Examples.tro).Reproducible = true ∧
    (v1.taskrun.Metadata Examples.troBare).Reproducible = false ∧
    (v1.taskrun.Metadata Examples.troCapitalTrue).Reproducible = false :=
  ⟨(Metadata_Reproducible_iff Examples.tro).1.mpr (by decide),
   (Metadata_Reproducible_iff Examples.troBare).2.2.1 rfl,
   (Metadata_Reproducible_iff Examples.troCapitalTrue).2.2.2 "True" (by decide) rfl⟩

/-- C4. The parameter mapping produced by the v2 invocationParams has neither the key "TaskRef"
nor the key "TaskSpec", whatever the fields of the declared spec are; and the Parameters of
every invocation that the v2 invocation builder returns is that mapping. -/
theorem invocationParams_never_has_TaskRef_TaskSpec (tro : TaskRunObject V) :
    "TaskRef" ∉ (v2.taskrun.invocationParams tro).keys ∧
    "TaskSpec" ∉ (v2.taskrun.invocationParams tro).keys ∧
    (∀ inv, v2.taskrun.invocation tro = Outcome.returned inv →
      inv.Parameters = some (v2.taskrun.invocationParams tro)) := by
  refine ⟨?_, ?_, ?_⟩
  · exact invocationParams_loop_skips tro.Spec.reflectFields "TaskRef" (by decide) _ []
      (by simp [GoMap.keys])
  · exact invocationParams_loop_skips tro.Spec.reflectFields "TaskSpec" (by decide) _ []
      (by simp [GoMap.keys])
  · intro inv hinv
    unfold v2.taskrun.invocation at hinv
    cases hp : tro.Status.Provenance with
    | none =>
      simp only [hp, Outcome.bind, Outcome.returned.injEq] at hinv
      rw [← hinv]
    | some p =>
      cases hc : p.ConfigSource with
      | none => simp [hp, hc, Outcome.bind, Outcome.deref] at hinv
      | some cs =>
        simp only [hp, hc, Outcome.bind, Outcome.deref, Outcome.returned.injEq] at hinv
        rw [← hinv]

/-- Witness of C4: in the example scenario the declared spec has the fields Params,
ServiceAccountName, TaskRef, TaskSpec and Timeout, and the invocation carries the three others. -/
theorem invocationParams_never_has_TaskRef_TaskSpec_witness :
    ∃ inv, v2.taskrun.invocation Examples.tro = Outcome.returned inv ∧
      inv.Parameters =
        some [("Params", "IMAGE=x"), ("ServiceAccountName", "default"), ("Timeout", "1h")] ∧
      "TaskRef" ∉ (v2.taskrun.invocationParams Examples.tro).keys ∧
      "TaskSpec" ∉ (v2.taskrun.invocationParams Examples.tro).keys :=
  ⟨_, rfl,
    ((invocationParams_never_has_TaskRef_TaskSpec Examples.tro).2.2 _ rfl).trans (by decide),
    (invocationParams_never_has_TaskRef_TaskSpec Examples.tro).1,
    (invocationParams_never_has_TaskRef_TaskSpec Examples.tro).2.1⟩

/-- The v2 invocation builder panics exactly on the records whose provenance hint is present
and carries no config-source reference. -/
theorem v2_invocation_panicked_iff (tro : TaskRunObject V) :
    v2.taskrun.invocation tro = Outcome.panicked ↔
      ∃ p, tro.Status.Provenance = some p ∧ p.ConfigSource = none := by
  unfold v2.taskrun.invocation
  cases hp : tro.Status.Provenance with
  | none => simp [Outcome.bind]
  | some p =>
    cases hc : p.ConfigSource with
    | none => simp [Outcome.bind, Outcome.deref, hc]
    | some cs => simp [Outcome.bind, Outcome.deref, hc]

/-- C5. For a run record whose provenance hint is present and carries a config-source
reference, the v2 invocation builder returns an invocation whose ConfigSource has the URI,
Digest and EntryPoint of that reference, each unchanged; for a run record without provenance
hint it returns an invocation whose ConfigSource has all three fields empty. -/
theorem v2_invocation_ConfigSource_verbatim (tro : TaskRunObject V) :
    (∀ p cs, tro.Status.Provenance = some p → p.ConfigSource = some cs →
      ∃ inv, v2.taskrun.invocation tro = Outcome.returned inv ∧
        inv.ConfigSource.URI = cs.URI ∧ inv.ConfigSource.Digest = cs.Digest ∧
        inv.ConfigSource.EntryPoint = cs.EntryPoint) ∧
    (tro.Status.Provenance = none →
      ∃ inv, v2.taskrun.invocation tro = Outcome.returned inv ∧
        inv.ConfigSource.URI = "" ∧ inv.ConfigSource.Digest = [] ∧
        inv.ConfigSource.EntryPoint = "") := by
  constructor
  · intro p cs hp hc
    have h : v2.taskrun.invocation tro = Outcome.returned
        { ConfigSource := { URI := cs.URI, Digest := cs.Digest, EntryPoint := cs.EntryPoint }
          Parameters := some (v2.taskrun.invocationParams tro) } := by
      simp [v2.taskrun.invocation, hp, hc, Outcome.bind, Outcome.deref]
    exact ⟨_, h, rfl, rfl, rfl⟩
  · intro hp
    have h : v2.taskrun.invocation tro = Outcome.returned
        { Parameters := some (v2.taskrun.invocationParams tro) } := by
      simp [v2.taskrun.invocation, hp, Outcome.bind]
    exact ⟨_, h, rfl, rfl, rfl⟩

/-- Witness of C5: the example scenario, and a run record without provenance hint. -/
theorem v2_invocation_ConfigSource_verbatim_witness :
    (∃ inv, v2.taskrun.invocation Examples.tro = Outcome.returned inv ∧
      inv.ConfigSource.URI = "git+https://x" ∧
      inv.ConfigSource.Digest = [("sha1", "deadbeef")] ∧
      inv.ConfigSource.EntryPoint = "build.sh") ∧
    (∃ inv, v2.taskrun.invocation Examples.troBare = Outcome.returned inv ∧
      inv.ConfigSource.URI = "" ∧ inv.ConfigSource.Digest = [] ∧
      inv.ConfigSource.EntryPoint = "") :=
  ⟨(v2_invocation_ConfigSource_verbatim Examples.tro).1 _ Examples.configSource rfl rfl,
   (v2_invocation_ConfigSource_verbatim Examples.troBare).2 rfl⟩

/-- C6, at the failing input. The run record is well formed: its provenance hint is present
and the hint's config-source pointer is nil. The v2 invocation builder does not return on it:
evaluating `p.ConfigSource.URI` dereferences the nil pointer and the call panics, so no
invocation with unset ConfigSource and populated Parameters is produced. -/
theorem v2_invocation_panics_on_hint_without_source :
    Examples.troHintWithoutSource.Status.Provenance = some { ConfigSource := none } ∧
    v2.taskrun.invocation Examples.troHintWithoutSource = Outcome.panicked ∧
    ¬ ∃ inv, v2.taskrun.invocation Examples.troHintWithoutSource = Outcome.returned inv := by
  refine ⟨rfl, by decide, ?_⟩
  rintro ⟨inv, h⟩
  have hp : v2.taskrun.invocation Examples.troHintWithoutSource = Outcome.panicked := by decide
  rw [hp] at h
  exact Outcome.noConfusion h

/-- The arguments that the v1 invocation builder hands to the shared constructor, whatever the
constructor is: the config-source pointer of the provenance hint when the record has a hint
and nil when it has none, the declared parameters, the parameter specifications of the
resolved specification (none when it is absent) and the object metadata. -/
theorem v1_invocation_source_from_hint
    (attestInvocation : Option v1beta1.ConfigSource → List v1beta1.Param →
      List v1beta1.ParamSpec → ObjectMeta → slsa.ProvenanceInvocation I)
    (tro : TaskRunObject V) :
    (∀ p, tro.Status.Provenance = some p →
      v1.taskrun.invocation attestInvocation tro =
        attestInvocation p.ConfigSource tro.Spec.Params
          (match tro.Status.TaskSpec with
           | some ts => ts.Params
           | none => [])
          tro.GetObjectMeta) ∧
    (tro.Status.Provenance = none →
      v1.taskrun.invocation attestInvocation tro =
        attestInvocation none tro.Spec.Params
          (match tro.Status.TaskSpec with
           | some ts => ts.Params
           | none => [])
          tro.GetObjectMeta) := by
  constructor
  · intro p hp
    simp [v1.taskrun.invocation, hp]
  · intro hp
    simp [v1.taskrun.invocation, hp]

/-- C7, at the failing input. The provenance hint of the example scenario carries a
config-source reference. The v1 invocation builder hands that reference to the shared
constructor and not nil: its result is the constructor's result on the reference and differs
from the constructor's result on nil, and with a constructor that copies the fields of its
config-source argument the v1 invocation has the URI, Digest and EntryPoint of the hint. On the
same record without provenance hint the builder hands over nil. -/
theorem v1_invocation_hands_hint_source_to_constructor :
    Examples.tro.Status.Provenance = some { ConfigSource := some Examples.configSource } ∧
    v1.taskrun.invocation Examples.attestInvocation Examples.tro =
      Examples.attestInvocation (some Examples.configSource) Examples.tro.Spec.Params
        [{ Name := "IMAGE", Description := "", Default := none }] Examples.tro.GetObjectMeta ∧
    v1.taskrun.invocation Examples.attestInvocation Examples.tro ≠
      Examples.attestInvocation none Examples.tro.Spec.Params
        [{ Name := "IMAGE", Description := "", Default := none }] Examples.tro.GetObjectMeta ∧
    (v1.taskrun.invocation Examples.attestInvocation Examples.tro).ConfigSource =
      { URI := "git+https://x", Digest := [("sha1", "deadbeef")], EntryPoint := "build.sh" } ∧
    v1.taskrun.invocation Examples.attestInvocation Examples.troBare =
      Examples.attestInvocation none Examples.troBare.Spec.Params [] Examples.troBare.GetObjectMeta := by
  decide

/-- C8. In the Metadata of a run record BuildStartedOn is set exactly when the start time of
the record is present and BuildFinishedOn exactly when its completion time is present; an
absent timestamp gives a nil field. The two are independent: BuildStartedOn does not depend on
the completion time and BuildFinishedOn does not depend on the start time. -/
theorem Metadata_timestamps_set_iff_present (tro : TaskRunObject V) :
    ((v1.taskrun.Metadata tro).BuildStartedOn.isSome = tro.Status.StartTime.isSome) ∧
    ((v1.taskrun.Metadata tro).BuildFinishedOn.isSome = tro.Status.CompletionTime.isSome) ∧
    ((v1.taskrun.Metadata tro).BuildStartedOn = none ↔ tro.Status.StartTime = none) ∧
    ((v1.taskrun.Metadata tro).BuildFinishedOn = none ↔ tro.Status.CompletionTime = none) ∧
    (∀ c, (v1.taskrun.Metadata
        { tro with Status := { tro.Status with CompletionTime := c } }).BuildStartedOn =
      (v1.taskrun.Metadata tro).BuildStartedOn) ∧
    (∀ s, (v1.taskrun.Metadata
        { tro with Status := { tro.Status with StartTime := s } }).BuildFinishedOn =
      (v1.taskrun.Metadata tro).BuildFinishedOn) := by
  refine ⟨?_, ?_, ?_, ?_, ?_, ?_⟩
  · unfold v1.taskrun.Metadata
    simp only [Metadata_label_loop]
    cases tro.Status.StartTime <;> cases tro.Status.CompletionTime <;> rfl
  · unfold v1.taskrun.Metadata
    simp only [Metadata_label_loop]
    cases tro.Status.StartTime <;> cases tro.Status.CompletionTime <;> rfl
  · unfold v1.taskrun.Metadata
    simp only [Metadata_label_loop]
    cases tro.Status.StartTime <;> cases tro.Status.CompletionTime <;> simp
  · unfold v1.taskrun.Metadata
    simp only [Metadata_label_loop]
    cases tro.Status.StartTime <;> cases tro.Status.CompletionTime <;> simp
  · intro c
    unfold v1.taskrun.Metadata
    simp only [Metadata_label_loop]
    cases tro.Status.StartTime <;> cases tro.Status.CompletionTime <;> cases c <;> rfl
  · intro s
    unfold v1.taskrun.Metadata
    simp only [Metadata_label_loop]
    cases tro.Status.StartTime <;> cases tro.Status.CompletionTime <;> cases s <;> rfl

/-- Witness of C8: a run record that has started and not completed has BuildStartedOn set and
BuildFinishedOn nil. -/
theorem Metadata_timestamps_set_iff_present_witness :
    (v1.taskrun.Metadata Examples.troRunning).BuildStartedOn.isSome = true ∧
    (v1.taskrun.Metadata Examples.troRunning).BuildFinishedOn = none :=
  ⟨(Metadata_timestamps_set_iff_present Examples.troRunning).1,
   (Metadata_timestamps_set_iff_present Examples.troRunning).2.2.2.1.mpr rfl⟩

/-- C9. When the start time of the record is present, BuildStartedOn is a timestamp that
denotes the same instant and is expressed in UTC, zone offset 0; a second record whose start
time denotes the same instant, in whatever zone, gets the same BuildStartedOn; and a start time
that is already in UTC is left unchanged. The same holds for the completion time and
BuildFinishedOn. -/
theorem Metadata_timestamps_normalised_to_UTC (tro tro2 : TaskRunObject V) (t : Time) :
    (tro.Status.StartTime = some t →
      ∃ u, (v1.taskrun.Metadata tro).BuildStartedOn = some u ∧
        u.instant = t.instant ∧ u.loc = Location.UTC ∧ u.loc.offset = 0 ∧
        (∀ t2, tro2.Status.StartTime = some t2 → t2.instant = t.instant →
          (v1.taskrun.Metadata tro2).BuildStartedOn = some u) ∧
        (t.loc = Location.UTC → u = t)) ∧
    (tro.Status.CompletionTime = some t →
      ∃ u, (v1.taskrun.Metadata tro).BuildFinishedOn = some u ∧
        u.instant = t.instant ∧ u.loc = Location.UTC ∧ u.loc.offset = 0 ∧
        (∀ t2, tro2.Status.CompletionTime = some t2 → t2.instant = t.instant →
          (v1.taskrun.Metadata tro2).BuildFinishedOn = some u) ∧
        (t.loc = Location.UTC → u = t)) := by
  constructor
  · intro ht
    refine ⟨t.UTC, ?_, rfl, rfl, rfl, ?_, ?_⟩
    · rw [(Metadata_timestamps tro).1, ht]
      rfl
    · intro t2 ht2 hinst
      rw [(Metadata_timestamps tro2).1, ht2]
      simp only [Option.map_some', Time.UTC, hinst]
    · intro hloc
      cases t with
      | mk instant loc =>
        simp only at hloc
        simp only [Time.UTC, hloc]
  · intro ht
    refine ⟨t.UTC, ?_, rfl, rfl, rfl, ?_, ?_⟩
    · rw [(Metadata_timestamps tro).2, ht]
      rfl
    · intro t2 ht2 hinst
      rw [(Metadata_timestamps tro2).2, ht2]
      simp only [Option.map_some', Time.UTC, hinst]
    · intro hloc
      cases t with
      | mk instant loc =>
        simp only at hloc
        simp only [Time.UTC, hloc]

/-- Witness of C9: the example scenario records its start time two hours east of UTC; its
BuildStartedOn is the same instant in UTC, and it is the BuildStartedOn of the record that
holds the same instant in UTC, where normalisation changes nothing. -/
theorem Metadata_timestamps_normalised_to_UTC_witness :
    ∃ u, (v1.taskrun.Metadata Examples.tro).BuildStartedOn = some u ∧
      u.instant = 1000 ∧ u.loc = Location.UTC ∧ u.loc.offset = 0 ∧
      (∀ t2, Examples.troUTC.Status.StartTime = some t2 → t2.instant = 1000 →
        (v1.taskrun.Metadata Examples.troUTC).BuildStartedOn = some u) ∧
      ((⟨"CEST", 7200⟩ : Location) = Location.UTC → u = ⟨1000, ⟨"CEST", 7200⟩⟩) :=
  (Metadata_timestamps_normalised_to_UTC Examples.tro Examples.troUTC
    ⟨1000, ⟨"CEST", 7200⟩⟩).1 rfl

/-- C10. When material resolution succeeds, the v1 generator returns a statement whose build
type is the GVK string of the record, and every statement the v2 generator returns for the same
record, builder ID and adapter responses has the same statement type tag and the same predicate
type tag, the SLSA provenance tag, but another build type; the v2 generator returns one whenever
its invocation builder returns. For no GVK string and payload type is the v1 build type equal
to the v2 build type. -/
theorem GenerateAttestation_v1_v2_tags_equal_buildType_differs
    (SubjectDigests : TaskRunObject V → List intoto.Subject)
    (Materials : TaskRunObject V → List slsa.ProvenanceMaterial × Option Error)
    (attestInvocation : Option v1beta1.ConfigSource → List v1beta1.Param →
      List v1beta1.ParamSpec → ObjectMeta → slsa.ProvenanceInvocation I)
    (buildConfig : TaskRunObject V → BC)
    (builderID : String) (payloadType : config.PayloadType) (tro : TaskRunObject V)
    (hok : (Materials tro).2 = none) :
    ∃ st1, v1.taskrun.GenerateAttestation SubjectDigests Materials attestInvocation buildConfig
        builderID tro = (some st1, none) ∧
      st1.Predicate.BuildType = tro.GetGVK ∧
      st1.StatementHeader.PredicateType = slsa.PredicateSLSAProvenance ∧
      (∀ r, v2.taskrun.GenerateAttestation SubjectDigests Materials builderID payloadType tro =
          Outcome.returned r →
        ∃ st2, r = (some st2, none) ∧
          st2.StatementHeader.Type_ = st1.StatementHeader.Type_ ∧
          st2.StatementHeader.PredicateType = st1.StatementHeader.PredicateType ∧
          st2.Predicate.BuildType =
            "https://chains.tekton.dev/format/" ++ payloadType ++ "/type/" ++ tro.GetGVK ∧
          st1.Predicate.BuildType ≠ st2.Predicate.BuildType) ∧
      (∀ inv, v2.taskrun.invocation tro = Outcome.returned inv →
        ∃ st2, v2.taskrun.GenerateAttestation SubjectDigests Materials builderID payloadType
          tro = Outcome.returned (some st2, none)) ∧
      (∀ p : config.PayloadType,
        st1.Predicate.BuildType ≠
          "https://chains.tekton.dev/format/" ++ p ++ "/type/" ++ tro.GetGVK) := by
  refine ⟨_, v1_GenerateAttestation_of_ok SubjectDigests Materials attestInvocation
    buildConfig builderID tro hok, rfl, rfl, ?_, ?_, ?_⟩
  · intro r hr
    rw [v2_GenerateAttestation_of_ok SubjectDigests Materials builderID payloadType tro hok]
      at hr
    cases hi : v2.taskrun.invocation tro with
    | panicked =>
      rw [hi] at hr
      exact Outcome.noConfusion hr
    | returned inv =>
      rw [hi] at hr
      simp only [Outcome.bind, Outcome.returned.injEq] at hr
      exact ⟨_, hr.symm, rfl, rfl, rfl, buildType_v2_ne_gvk payloadType tro.GetGVK⟩
  · intro inv hi
    rw [v2_GenerateAttestation_of_ok SubjectDigests Materials builderID payloadType tro hok, hi]
    exact ⟨_, rfl⟩
  · intro p
    exact buildType_v2_ne_gvk p tro.GetGVK

/-- Witness of C10: in the example scenario both generators return a statement; the tags agree
and the build types are the GVK string and the composed URI. -/
theorem GenerateAttestation_v1_v2_tags_equal_buildType_differs_witness :
    (Examples.materialsOk Examples.tro).2 = none ∧
    ∃ st1 st2,
      v1.taskrun.GenerateAttestation Examples.subjectDigests Examples.materialsOk
        Examples.attestInvocation Examples.buildConfig "builder" Examples.tro =
          (some st1, none) ∧
      v2.taskrun.GenerateAttestation Examples.subjectDigests Examples.materialsOk "builder"
        "in-toto" Examples.tro = Outcome.returned (some st2, none) ∧
      st2.StatementHeader.Type_ = st1.StatementHeader.Type_ ∧
      st2.StatementHeader.PredicateType = st1.StatementHeader.PredicateType ∧
      st1.Predicate.BuildType = "tekton.dev/v1beta1/TaskRun" ∧
      st2.Predicate.BuildType =
        "https://chains.tekton.dev/format/in-toto/type/tekton.dev/v1beta1/TaskRun" ∧
      st1.Predicate.BuildType ≠ st2.Predicate.BuildType := by
  obtain ⟨st1, h1, hbt, _, hall, hex, _⟩ :=
    GenerateAttestation_v1_v2_tags_equal_buildType_differs Examples.subjectDigests
      Examples.materialsOk Examples.attestInvocation Examples.buildConfig "builder" "in-toto"
      Examples.tro rfl
  obtain ⟨st2, h2⟩ := hex _ rfl
  obtain ⟨st, hst, ht, hp, hb, hne⟩ := hall _ h2
  simp only [Prod.mk.injEq, Option.some.injEq, and_true] at hst
  subst hst
  exact ⟨rfl, st1, st2, h1, h2, ht, hp, hbt.trans (by decide), hb.trans (by decide), hne⟩

/-- C11. When material resolution succeeds, every result the v2 generator returns is a
statement whose BuildConfig pairs the resolved specification of the record (Status.TaskSpec,
absent or not) with its declared results list (Status.TaskRunResults), both unchanged, the list
with the same elements in the same order; and the v2 generator returns such a statement
whenever its invocation builder returns. -/
theorem GenerateAttestation_v2_BuildConfig_verbatim
    (SubjectDigests : TaskRunObject V → List intoto.Subject)
    (Materials : TaskRunObject V → List slsa.ProvenanceMaterial × Option Error)
    (builderID : String) (payloadType : config.PayloadType) (tro : TaskRunObject V)
    (hok : (Materials tro).2 = none) :
    (∀ r, v2.taskrun.GenerateAttestation SubjectDigests Materials builderID payloadType tro =
        Outcome.returned r →
      ∃ st, r = (some st, none) ∧
        st.Predicate.BuildConfig.TaskSpec = tro.Status.TaskSpec ∧
        st.Predicate.BuildConfig.TaskRunResults = tro.Status.TaskRunResults) ∧
    (∀ inv, v2.taskrun.invocation tro = Outcome.returned inv →
      ∃ st, v2.taskrun.GenerateAttestation SubjectDigests Materials builderID payloadType tro =
          Outcome.returned (some st, none) ∧
        st.Predicate.BuildConfig.TaskSpec = tro.Status.TaskSpec ∧
        st.Predicate.BuildConfig.TaskRunResults = tro.Status.TaskRunResults) := by
  constructor
  · intro r hr
    rw [v2_GenerateAttestation_of_ok SubjectDigests Materials builderID payloadType tro hok]
      at hr
    cases hi : v2.taskrun.invocation tro with
    | panicked =>
      rw [hi] at hr
      exact Outcome.noConfusion hr
    | returned inv =>
      rw [hi] at hr
      simp only [Outcome.bind, Outcome.returned.injEq] at hr
      exact ⟨_, hr.symm, rfl, rfl⟩
  · intro inv hi
    rw [v2_GenerateAttestation_of_ok SubjectDigests Materials builderID payloadType tro hok, hi]
    exact ⟨_, rfl, rfl, rfl⟩

/-- Witness of C11: in the example scenario the v2 statement carries the resolved
specification and the one declared result, digest = sha256:abc. -/
theorem GenerateAttestation_v2_BuildConfig_verbatim_witness :
    (Examples.materialsOk Examples.tro).2 = none ∧
    ∃ st, v2.taskrun.GenerateAttestation Examples.subjectDigests Examples.materialsOk "builder"
        "in-toto" Examples.tro = Outcome.returned (some st, none) ∧
      st.Predicate.BuildConfig.TaskSpec = Examples.tro.Status.TaskSpec ∧
      st.Predicate.BuildConfig.TaskRunResults = [{ Name := "digest", Value := "sha256:abc" }] :=
  ⟨rfl, (GenerateAttestation_v2_BuildConfig_verbatim Examples.subjectDigests
    Examples.materialsOk "builder" "in-toto" Examples.tro rfl).2 _ rfl⟩

/-- C12. When material resolution succeeds, the v1 generator returns a statement whose
statement type is the in-toto statement tag, whose predicate type is the SLSA provenance tag,
whose Builder.ID is the supplied builder ID and whose build type is the GVK string of the
record; every result the v2 generator returns is a statement with the same two tags, the
supplied builder ID and the build type "https://chains.tekton.dev/format/" ++ payloadType ++
"/type/" ++ GVK, and the v2 generator returns such a statement whenever its invocation builder
returns. -/
theorem GenerateAttestation_tags_builder_buildType
    (SubjectDigests : TaskRunObject V → List intoto.Subject)
    (Materials : TaskRunObject V → List slsa.ProvenanceMaterial × Option Error)
    (attestInvocation : Option v1beta1.ConfigSource → List v1beta1.Param →
      List v1beta1.ParamSpec → ObjectMeta → slsa.ProvenanceInvocation I)
    (buildConfig : TaskRunObject V → BC)
    (builderID : String) (payloadType : config.PayloadType) (tro : TaskRunObject V)
    (hok : (Materials tro).2 = none) :
    (∃ st, v1.taskrun.GenerateAttestation SubjectDigests Materials attestInvocation buildConfig
        builderID tro = (some st, none) ∧
      st.StatementHeader.Type_ = intoto.StatementInTotoV01 ∧
      st.StatementHeader.PredicateType = slsa.PredicateSLSAProvenance ∧
      st.Predicate.Builder.ID = builderID ∧
      st.Predicate.BuildType = tro.GetGVK) ∧
    (∀ r, v2.taskrun.GenerateAttestation SubjectDigests Materials builderID payloadType tro =
        Outcome.returned r →
      ∃ st, r = (some st, none) ∧
        st.StatementHeader.Type_ = intoto.StatementInTotoV01 ∧
        st.StatementHeader.PredicateType = slsa.PredicateSLSAProvenance ∧
        st.Predicate.Builder.ID = builderID ∧
        st.Predicate.BuildType =
          "https://chains.tekton.dev/format/" ++ payloadType ++ "/type/" ++ tro.GetGVK) ∧
    (∀ inv, v2.taskrun.invocation tro = Outcome.returned inv →
      ∃ st, v2.taskrun.GenerateAttestation SubjectDigests Materials builderID payloadType tro =
          Outcome.returned (some st, none) ∧
        st.StatementHeader.Type_ = intoto.StatementInTotoV01 ∧
        st.StatementHeader.PredicateType = slsa.PredicateSLSAProvenance ∧
        st.Predicate.Builder.ID = builderID ∧
        st.Predicate.BuildType =
          "https://chains.tekton.dev/format/" ++ payloadType ++ "/type/" ++ tro.GetGVK) := by
  refine ⟨?_, ?_, ?_⟩
  · exact ⟨_, v1_GenerateAttestation_of_ok SubjectDigests Materials attestInvocation
      buildConfig builderID tro hok, rfl, rfl, rfl, rfl⟩
  · intro r hr
    rw [v2_GenerateAttestation_of_ok SubjectDigests Materials builderID payloadType tro hok]
      at hr
    cases hi : v2.taskrun.invocation tro with
    | panicked =>
      rw [hi] at hr
      exact Outcome.noConfusion hr
    | returned inv =>
      rw [hi] at hr
      simp only [Outcome.bind, Outcome.returned.injEq] at hr
      exact ⟨_, hr.symm, rfl, rfl, rfl, rfl⟩
  · intro inv hi
    rw [v2_GenerateAttestation_of_ok SubjectDigests Materials builderID payloadType tro hok, hi]
    exact ⟨_, rfl, rfl, rfl, rfl, rfl⟩

/-- Witness of C12: the example scenario with builder ID "builder" and payload type
"in-toto". -/
theorem GenerateAttestation_tags_builder_buildType_witness :
    (Examples.materialsOk Examples.tro).2 = none ∧
    (∃ st, v1.taskrun.GenerateAttestation Examples.subjectDigests Examples.materialsOk
        Examples.attestInvocation Examples.buildConfig "builder" Examples.tro = (some st, none) ∧
      st.StatementHeader.Type_ = "https://in-toto.io/Statement/v0.1" ∧
      st.StatementHeader.PredicateType = "https://slsa.dev/provenance/v0.2" ∧
      st.Predicate.Builder.ID = "builder" ∧
      st.Predicate.BuildType = "tekton.dev/v1beta1/TaskRun") ∧
    (∃ st, v2.taskrun.GenerateAttestation Examples.subjectDigests Examples.materialsOk "builder"
        "in-toto" Examples.tro = Outcome.returned (some st, none) ∧
      st.StatementHeader.Type_ = "https://in-toto.io/Statement/v0.1" ∧
      st.StatementHeader.PredicateType = "https://slsa.dev/provenance/v0.2" ∧
      st.Predicate.Builder.ID = "builder" ∧
      st.Predicate.BuildType =
        "https://chains.tekton.dev/format/in-toto/type/tekton.dev/v1beta1/TaskRun") := by
  have h := GenerateAttestation_tags_builder_buildType Examples.subjectDigests
    Examples.materialsOk Examples.attestInvocation Examples.buildConfig "builder" "in-toto"
    Examples.tro rfl
  obtain ⟨⟨st1, h1, a1, b1, c1, d1⟩, _, h3⟩ := h
  obtain ⟨st2, h2, a2, b2, c2, d2⟩ := h3 _ rfl
  exact ⟨rfl, ⟨st1, h1, a1, b1, c1, d1.trans (by decide)⟩,
    ⟨st2, h2, a2, b2, c2, d2.trans (by decide)⟩⟩

/-- C13. For a run record whose declared spec has distinct field names, as every struct has:
a name is a key of the v2 invocationParams mapping exactly when it is the name of a field of
the declared spec other than "TaskRef" and "TaskSpec"; every such field is found under its
name with its own value, of the type of the field values and unconverted; every entry of the
mapping is a field of the declared spec; and no key occurs twice. -/
theorem invocationParams_exactly_unskipped_fields (tro : TaskRunObject V)
    (hnames : (tro.Spec.reflectFields.map Prod.fst).Nodup) :
    (∀ k, k ∈ (v2.taskrun.invocationParams tro).keys ↔
      k ∈ tro.Spec.reflectFields.map Prod.fst ∧ k ≠ "TaskRef" ∧ k ≠ "TaskSpec") ∧
    (∀ k v, (k, v) ∈ tro.Spec.reflectFields → k ≠ "TaskRef" → k ≠ "TaskSpec" →
      (v2.taskrun.invocationParams tro).get? k = some v) ∧
    (∀ k v, (k, v) ∈ v2.taskrun.invocationParams tro → (k, v) ∈ tro.Spec.reflectFields) ∧
    (v2.taskrun.invocationParams tro).keys.Nodup := by
  have heq : v2.taskrun.invocationParams tro =
      tro.Spec.reflectFields.filter
        (fun field => !(sets.NewString ["TaskRef", "TaskSpec"]).Has field.1) := by
    rw [invocationParams_eq_foldl,
      fieldLoop_eq_append_filter tro.Spec.reflectFields [] (by simpa [GoMap.keys] using hnames)]
    rfl
  have hmem : ∀ k v, (k, v) ∈ v2.taskrun.invocationParams tro ↔
      (k, v) ∈ tro.Spec.reflectFields ∧ k ≠ "TaskRef" ∧ k ≠ "TaskSpec" := by
    intro k v
    rw [heq, List.mem_filter]
    have hs := skipFields_Has k
    cases hh : (sets.NewString ["TaskRef", "TaskSpec"]).Has k with
    | true =>
      rw [hh] at hs
      have := hs.mp rfl
      simp only [Bool.not_true, Bool.false_eq_true, and_false, false_iff, not_and, not_not, ne_eq]
      intro _ h1
      rcases this with h | h
      · exact absurd h h1
      · exact h
    | false =>
      rw [hh] at hs
      have hn : ¬ (k = "TaskRef" ∨ k = "TaskSpec") := fun h => Bool.noConfusion (hs.mpr h)
      simp only [Bool.not_false, and_true, ne_eq]
      constructor
      · intro h
        exact ⟨h, fun h1 => hn (Or.inl h1), fun h2 => hn (Or.inr h2)⟩
      · intro h
        exact h.1
  have hnd : (v2.taskrun.invocationParams tro).keys.Nodup := by
    rw [heq]
    exact hnames.sublist ((List.filter_sublist _).map Prod.fst)
  refine ⟨?_, ?_, ?_, hnd⟩
  · intro k
    simp only [GoMap.keys, List.mem_map, Prod.exists, exists_and_right, exists_eq_right]
    constructor
    · rintro ⟨v, hv⟩
      exact ⟨⟨v, ((hmem k v).mp hv).1⟩, ((hmem k v).mp hv).2⟩
    · rintro ⟨⟨v, hv⟩, h1, h2⟩
      exact ⟨v, (hmem k v).mpr ⟨hv, h1, h2⟩⟩
  · intro k v hkv h1 h2
    exact GoMap.get?_of_mem _ hnd k v ((hmem k v).mpr ⟨hkv, h1, h2⟩)
  · intro k v hkv
    exact ((hmem k v).mp hkv).1

/-- Witness of C13: the declared spec of the example scenario has the five distinct field names
Params, ServiceAccountName, TaskRef, TaskSpec and Timeout; the mapping has the keys Params,
ServiceAccountName and Timeout, and Timeout is mapped to the value of the field Timeout. -/
theorem invocationParams_exactly_unskipped_fields_witness :
    (Examples.tro.Spec.reflectFields.map Prod.fst).Nodup ∧
    (v2.taskrun.invocationParams Examples.tro).get? "Timeout" = some "1h" ∧
    ("Timeout" ∈ (v2.taskrun.invocationParams Examples.tro).keys ↔
      "Timeout" ∈ Examples.tro.Spec.reflectFields.map Prod.fst ∧
        "Timeout" ≠ "TaskRef" ∧ "Timeout" ≠ "TaskSpec") ∧
    (v2.taskrun.invocationParams Examples.tro).keys.Nodup :=
  ⟨by decide,
   (invocationParams_exactly_unskipped_fields Examples.tro (by decide)).2.1 "Timeout" "1h"
     (by decide) (by decide) (by decide),
   (invocationParams_exactly_unskipped_fields Examples.tro (by decide)).1 "Timeout",
   (invocationParams_exactly_unskipped_fields Examples.tro (by decide)).2.2.2⟩

/-- C14. Two run records with the same object metadata, GVK string and status, whose declared
specs have the same fields with the same values except in the fields TaskRef and TaskSpec, get
the same result from the v2 generator, given the same builder ID, payload type and adapter
responses: the same statement, the same error or the same panic. -/
theorem GenerateAttestation_v2_ignores_TaskRef_TaskSpec
    (SubjectDigests : TaskRunObject V → List intoto.Subject)
    (Materials : TaskRunObject V → List slsa.ProvenanceMaterial × Option Error)
    (builderID : String) (payloadType : config.PayloadType) (tro1 tro2 : TaskRunObject V)
    (hmeta : tro1.ObjectMeta = tro2.ObjectMeta) (hgvk : tro1.gvk = tro2.gvk)
    (hstatus : tro1.Status = tro2.Status)
    (hspec : List.Forall₂
      (fun f1 f2 => f1.1 = f2.1 ∧ (f1.1 = "TaskRef" ∨ f1.1 = "TaskSpec" ∨ f1.2 = f2.2))
      tro1.Spec.reflectFields tro2.Spec.reflectFields)
    (hsubjects : SubjectDigests tro1 = SubjectDigests tro2)
    (hmaterials : Materials tro1 = Materials tro2) :
    v2.taskrun.GenerateAttestation SubjectDigests Materials builderID payloadType tro1 =
      v2.taskrun.GenerateAttestation SubjectDigests Materials builderID payloadType tro2 := by
  have hinv := v2_invocation_congr tro1 tro2 hstatus (invocationParams_congr tro1 tro2 hspec)
  have hmd := Metadata_congr tro1 tro2 hstatus hmeta
  unfold v2.taskrun.GenerateAttestation TaskRunObject.GetGVK
  rw [hsubjects, hmaterials, hinv, hmd, hgvk, hstatus]

/-- Witness of C14: the example scenario and the record that differs from it in the task
reference and the task specification of the declared spec get the same v2 statement, and the
same error when material resolution fails. -/
theorem GenerateAttestation_v2_ignores_TaskRef_TaskSpec_witness :
    Examples.tro ≠ Examples.troOtherTask ∧
    v2.taskrun.GenerateAttestation Examples.subjectDigests Examples.materialsOk "builder"
      "in-toto" Examples.tro =
    v2.taskrun.GenerateAttestation Examples.subjectDigests Examples.materialsOk "builder"
      "in-toto" Examples.troOtherTask ∧
    v2.taskrun.GenerateAttestation Examples.subjectDigests Examples.materialsFail "builder"
      "in-toto" Examples.tro =
    v2.taskrun.GenerateAttestation Examples.subjectDigests Examples.materialsFail "builder"
      "in-toto" Examples.troOtherTask :=
  ⟨by decide,
   GenerateAttestation_v2_ignores_TaskRef_TaskSpec Examples.subjectDigests Examples.materialsOk
     "builder" "in-toto" Examples.tro Examples.troOtherTask rfl rfl rfl
     (by simp [Examples.tro, Examples.troOtherTask]) rfl rfl,
   GenerateAttestation_v2_ignores_TaskRef_TaskSpec Examples.subjectDigests
     Examples.materialsFail "builder" "in-toto" Examples.tro Examples.troOtherTask rfl rfl rfl
     (by simp [Examples.tro, Examples.troOtherTask]) rfl rfl⟩

end Claims

end Chains
